import Mathlib

/-!
Verification of the QuizFlow frontend quiz-session protocol.

This file shallowly embeds the stateful logic of the quiz-taking screen
(`src/frontend/src/pages/Quiz.jsx`), the results/grade display helpers
(`src/frontend/src/pages/Results.jsx`), and the history/dashboard list
consumers (`src/frontend/src/pages/History.jsx`, Dashboard in the combined
Results source), together with spec-modelled definitions for the two backend
pieces the repository sources do not include (the Grading Engine and the
history endpoint).

React component state becomes an explicit record `CState`; each `useEffect`
body, event handler and async continuation becomes a Lean function on that
record; timer/interval behaviour becomes an explicit event list processed by
a step function.  Counters (`statusRequests`, `quizFetches`, `submitCalls`)
record the HTTP requests a run issues.
-/

namespace QuizFlow

/-- Backend quiz-session status as carried by the status endpoint
(`GET /quiz-status/...` returns one of these four strings). -/
inductive Status
  | generating
  | ready
  | completed
  | failed
deriving DecidableEq

/-- Client-side rendered status: the React state `quizStatus` (Quiz.jsx
line 11), which additionally starts in the value carried by the string
literal `loading` before the first poll resolves. -/
inductive ClientStatus
  | loading
  | generating
  | ready
  | completed
  | failed
deriving DecidableEq

/-- A backend status mapped to the client status it is stored as by
`setQuizStatus(status)` (Quiz.jsx line 46). -/
def ClientStatus.ofStatus : Status → ClientStatus
  | .generating => .generating
  | .ready => .ready
  | .completed => .completed
  | .failed => .failed

/-- Rank of a client status in the forward order
`loading < generating < ready < completed` used to talk about display
regressions; `failed` is terminal and given the top rank. -/
def ClientStatus.rank : ClientStatus → Nat
  | .loading => 0
  | .generating => 1
  | .ready => 2
  | .completed => 3
  | .failed => 4

/-- Payload of `GET /quiz-status/...`: the status plus the optional
`error_message` field read at Quiz.jsx line 53. -/
structure StatusResponse where
  status : Status
  error_message : Option String

/-- One quiz question as far as the quiz screen needs it (only the id is
used by the state logic; prompt, type, options only feed rendering). -/
structure Question where
  id : String

/-- Quiz payload stored into `quizData` by `setQuizData(quizResponse.data)`
(Quiz.jsx line 50).  The JSON wrapper object around the `quiz` key is
elided: a present `quizData` always carries `quiz_metadata` and a
`questions` array (a JS array is truthy even when empty), so the truthiness
tests `quizData?.quiz?.quiz_metadata` and `quizData?.quiz?.questions`
reduce to presence of the payload. -/
structure QuizMetadata where
  subject : String
  estimated_time_minutes : Option Nat

structure Quiz where
  quiz_metadata : QuizMetadata
  questions : List Question

/-- The component state of the quiz screen (Quiz.jsx lines 11-17), plus
`mounted` (whether the effect cleanup has run) and request counters that
record the HTTP calls a run issues. -/
structure CState where
  mounted : Bool
  quizStatus : ClientStatus
  quizData : Option Quiz
  currentQuestionIndex : Nat
  answers : String → Option String
  timeRemaining : Option Nat
  isSubmitting : Bool
  error : Option String
  statusRequests : Nat
  quizFetches : Nat
  submitCalls : Nat

/-- Initial state of a freshly mounted quiz screen (Quiz.jsx lines 11-17):
`quizStatus` starts as the loading value, every other piece of data is
absent, and no requests have been issued yet. -/
def initState : CState :=
  { mounted := true
    quizStatus := .loading
    quizData := none
    currentQuestionIndex := 0
    answers := fun _ => none
    timeRemaining := none
    isSubmitting := false
    error := none
    statusRequests := 0
    quizFetches := 0
    submitCalls := 0 }

/-- Outcome of one status request as observed by `checkQuizStatus`: either
the awaited response (together with the payload the follow-up quiz fetch
returns, when one is issued), or a thrown request error with its message. -/
inductive PollOutcome
  | ok (resp : StatusResponse) (quiz : Quiz)
  | err (msg : String)

/-- The continuation of `checkQuizStatus` after `await getQuizStatus`
resolves (Quiz.jsx lines 44-55): stores the received status
unconditionally; on `ready` issues the follow-up quiz fetch and stores its
payload; on `failed` stores the error message.  There is no
sequence-number or staleness guard: the continuation is applied in
response-arrival order whatever request it belongs to. -/
def applyStatusResponse (st : CState) (resp : StatusResponse) (quiz : Quiz) : CState :=
  let st1 := { st with quizStatus := ClientStatus.ofStatus resp.status }
  match resp.status with
  | .ready =>
      { st1 with quizFetches := st1.quizFetches + 1, quizData := some quiz }
  | .failed =>
      let errorMsg := resp.error_message.getD "Unknown error"
      { st1 with error := some ("Quiz generation failed: " ++ errorMsg) }
  | _ => st1

/-- Responses applied in arrival order, as the JS event loop runs the
await-continuations of possibly overlapping `checkQuizStatus` calls. -/
def applyArrivals (st : CState) (arrivals : List (StatusResponse × Quiz)) : CState :=
  arrivals.foldl (fun s p => applyStatusResponse s p.1 p.2) st

/-- One full `checkQuizStatus` invocation (Quiz.jsx lines 41-60): issues the
status request (counted), then either runs the response continuation or,
when the request throws, runs the catch block, which logs and calls
`setError` with the failure text (Quiz.jsx lines 56-59) — the stored status
is left unchanged in that case. -/
def checkQuizStatus (st : CState) (out : PollOutcome) : CState :=
  match out with
  | .ok resp quiz =>
      applyStatusResponse { st with statusRequests := st.statusRequests + 1 } resp quiz
  | .err msg =>
      { st with statusRequests := st.statusRequests + 1
                error := some ("Failed to load quiz: " ++ msg) }

/-- Period, in milliseconds, of the repeating poll interval created by the
mount effect: `setInterval(checkQuizStatus, 3000)` (Quiz.jsx line 21). -/
def pollIntervalMs : Nat := 3000

/-- Events driving the polling effect (Quiz.jsx lines 19-23): a tick of the
3-second interval with the outcome of the status request it issues, or the
effect cleanup `clearInterval` that runs on unmount. -/
inductive PollEvent
  | tick (out : PollOutcome)
  | unmount

/-- One event of the polling effect.  The interval callback runs on every
tick while the interval is alive, regardless of the current status: the
cleanup (Quiz.jsx line 22) is the only thing that clears it.  A tick after
unmount is a no-op, modelling that the cleared interval no longer fires. -/
def pollStep (st : CState) (e : PollEvent) : CState :=
  match e with
  | .unmount => { st with mounted := false }
  | .tick out => if st.mounted then checkQuizStatus st out else st

/-- A run of the polling effect over a list of events. -/
def pollRun (st : CState) (es : List PollEvent) : CState :=
  es.foldl pollStep st

/-- The outcomes of the ticks that occur while the screen is still mounted,
i.e. before the first unmount event. -/
def mountedTicks : List PollEvent → List PollOutcome
  | [] => []
  | PollEvent.unmount :: _ => []
  | PollEvent.tick out :: es => out :: mountedTicks es

/-- Whether a tick outcome is a successful response carrying status
`ready` — exactly the case in which `checkQuizStatus` issues the follow-up
quiz fetch. -/
def isReadyOutcome : PollOutcome → Bool
  | .ok resp _ =>
      match resp.status with
      | .ready => true
      | _ => false
  | .err _ => false

/-- The timer-seed effect (Quiz.jsx lines 25-30), dependency `quizData`:
when a quiz payload is present, seeds `timeRemaining` with
`(estimated_time_minutes || 20) * 60`.  The JS `||` default applies both
when the field is absent and when it is `0` (falsy). -/
def seedTimer (st : CState) : CState :=
  match st.quizData with
  | none => st
  | some quiz =>
      let estimatedMinutes :=
        match quiz.quiz_metadata.estimated_time_minutes with
        | none => 20
        | some 0 => 20
        | some k => k
      { st with timeRemaining := some (estimatedMinutes * 60) }

/-- handleSubmitQuiz (Quiz.jsx lines 78-88): unconditionally sets
`isSubmitting` and issues the submit request.  There is no guard on
`isSubmitting` being already true. -/
def handleSubmitQuiz (st : CState) : CState :=
  { st with isSubmitting := true, submitCalls := st.submitCalls + 1 }

/-- The countdown effect (Quiz.jsx lines 32-39), dependency
`timeRemaining`, collapsed with the one-second timeout it schedules: for a
positive value the scheduled timeout fires and decrements by one; at zero
the effect calls `handleSubmitQuiz`; for a null `timeRemaining` neither
branch applies (`null > 0` and `null === 0` are both false in JS). -/
def countdownEffect (st : CState) : CState :=
  match st.timeRemaining with
  | some (t + 1) => { st with timeRemaining := some t }
  | some 0 => handleSubmitQuiz st
  | none => st

/-- Auxiliary run of the countdown from a given number of seconds: the
effect at each positive value schedules the decrement, and the effect at
zero submits, after which `timeRemaining` no longer changes and the effect
does not re-run. -/
def countdownRunAux : Nat → CState → CState
  | 0, st => handleSubmitQuiz st
  | t + 1, st => countdownRunAux t { st with timeRemaining := some t }

/-- The countdown run to quiescence from the current `timeRemaining`,
assuming no other event changes it in between. -/
def countdownRun (st : CState) : CState :=
  match st.timeRemaining with
  | none => st
  | some t => countdownRunAux t st

/-- One interval tick together with the React effect it triggers: whenever
`checkQuizStatus` stores a quiz payload (every `ready` response does, and
each fetch yields a fresh object, so the `[quizData]` dependency of the
timer-seed effect is considered changed), the timer-seed effect re-runs
afterwards. -/
def pollTickWithEffects (st : CState) (out : PollOutcome) : CState :=
  let st1 := checkQuizStatus st out
  if isReadyOutcome out then seedTimer st1 else st1

/-- handleAnswerChange (Quiz.jsx lines 62-64): functional update of the
answers object via spread, overriding the `questionId` key and copying all
other keys. -/
def handleAnswerChange (st : CState) (questionId answer : String) : CState :=
  { st with answers := fun q => if q = questionId then some answer else st.answers q }

/-- handleNextQuestion (Quiz.jsx lines 66-70), parameterised by the length
of the loaded question list: increments the index only while it is below
the last index. -/
def handleNextQuestion (numQuestions : Nat) (st : CState) : CState :=
  if st.currentQuestionIndex < numQuestions - 1 then
    { st with currentQuestionIndex := st.currentQuestionIndex + 1 }
  else st

/-- handlePreviousQuestion (Quiz.jsx lines 72-76): decrements the index
only while it is above zero. -/
def handlePreviousQuestion (st : CState) : CState :=
  if 0 < st.currentQuestionIndex then
    { st with currentQuestionIndex := st.currentQuestionIndex - 1 }
  else st

/-- The four screens the Quiz component can render. -/
inductive Screen
  | generatingScreen
  | errorScreen
  | loadingQuestions
  | quizScreen
deriving DecidableEq

/-- The render branch order of the Quiz component (Quiz.jsx lines
101-155): the generation spinner while the stored status is loading or
generating; otherwise the terminal error screen when an error is stored or
the status is failed; otherwise a loading spinner until the quiz payload is
present; otherwise the quiz itself. -/
def render (st : CState) : Screen :=
  if st.quizStatus = .loading ∨ st.quizStatus = .generating then
    .generatingScreen
  else if st.error.isSome ∨ st.quizStatus = .failed then
    .errorScreen
  else if st.quizData.isNone then
    .loadingQuestions
  else
    .quizScreen

/-- getScoreMessage (Results.jsx lines 47-53): the headline message chosen
from the percentage by the same closed-interval thresholds as the letter
grade. -/
def getScoreMessage (percentage : ℚ) : String :=
  if 90 ≤ percentage then "Outstanding! You\x27ve mastered this subject! 🎉"
  else if 80 ≤ percentage then "Great job! You have a solid understanding! 👏"
  else if 70 ≤ percentage then "Good work! Keep practicing to improve! 👍"
  else if 60 ≤ percentage then "Not bad! Review the topics you missed. 📚"
  else "Keep studying! Practice makes perfect! 💪"

/-- Modelled from the spec: the letter-grade thresholds of the backend
Grading Engine (spec section 4.4; the grading backend is not among the
repository source files, only its frontend consumers are).  A for
percentage at least 90, B for at least 80, C for at least 70, D for at
least 60, F otherwise; thresholds are closed on the left. -/
def letterGrade (percentage : ℚ) : String :=
  if 90 ≤ percentage then "A"
  else if 80 ≤ percentage then "B"
  else if 70 ≤ percentage then "C"
  else if 60 ≤ percentage then "D"
  else "F"

/-- The `overall_score` record of a Grading Result as consumed by
Results.jsx lines 98-116. -/
structure OverallScore where
  points_earned : ℚ
  total_points : ℚ
  percentage : ℚ
  grade : String

/-- Modelled from the spec: the overall-score computation of the backend
Grading Engine (spec section 4.4; not among the repository source files).
Points earned is the count of correct answers, total points the number of
questions, percentage is points earned over total points times 100 over
the rationals, and the grade follows the letter thresholds. -/
def computeOverallScore (results : List Bool) : OverallScore :=
  let earned : ℚ := (results.count true : ℚ)
  let total : ℚ := (results.length : ℚ)
  let pct : ℚ := earned / total * 100
  { points_earned := earned
    total_points := total
    percentage := pct
    grade := letterGrade pct }

/-- One entry of the history list as consumed by the History and Dashboard
pages (fields read at History.jsx lines 183-205 and Dashboard lines
405-419 of the combined Results source file).  Creation time is modelled
as a natural number. -/
structure SessionSummary where
  session_id : String
  subject : String
  status : Status
  created_at : Nat

/-- Most-recent-first order on history entries. -/
def newerFirst (a b : SessionSummary) : Prop :=
  b.created_at ≤ a.created_at

instance : DecidableRel newerFirst := fun a b =>
  inferInstanceAs (Decidable (b.created_at ≤ a.created_at))

/-- Insertion into a most-recent-first list, keeping newer entries ahead. -/
def insertDesc (s : SessionSummary) : List SessionSummary → List SessionSummary
  | [] => [s]
  | t :: ts =>
      if t.created_at ≤ s.created_at then s :: t :: ts else t :: insertDesc s ts

/-- Modelled from the spec: the history endpoint (`GET /history`) of the
backend, which is not among the repository source files; per the spec it
returns all sessions ordered by creation time most-recent-first.  Modelled
as an insertion sort of the stored sessions by descending `created_at`. -/
def historyQuery (sessions : List SessionSummary) : List SessionSummary :=
  sessions.foldr insertDesc []

/-- The recent-activity slice of the Dashboard page (lines 259-266 of the
combined Results source file): `sessions.slice(0, 5)` over the list the
history endpoint returned, with no further sort. -/
def recentSessions (sessions : List SessionSummary) : List SessionSummary :=
  sessions.take 5

/-- loadHistory (History.jsx lines 17-26): stores the returned session list
unchanged. -/
def loadHistory (sessions : List SessionSummary) : List SessionSummary :=
  sessions

/-- A concrete quiz payload used by the concrete-run theorems. -/
def demoQuiz : Quiz :=
  { quiz_metadata := { subject := "Mathematics", estimated_time_minutes := some 20 }
    questions := [] }

/-- A concrete ready response. -/
def readyResponse : StatusResponse :=
  { status := .ready, error_message := none }

/-- A concrete quiz payload whose metadata carries a zero (falsy)
`estimated_time_minutes`. -/
def zeroMinuteQuiz : Quiz :=
  { quiz_metadata := { subject := "Mathematics", estimated_time_minutes := some 0 }
    questions := [] }

theorem applyStatusResponse_quizStatus (st : CState) (resp : StatusResponse) (quiz : Quiz) :
    (applyStatusResponse st resp quiz).quizStatus = ClientStatus.ofStatus resp.status := by
  rcases resp with ⟨s, em⟩
  cases s <;> rfl

theorem checkQuizStatus_statusRequests (st : CState) (out : PollOutcome) :
    (checkQuizStatus st out).statusRequests = st.statusRequests + 1 := by
  cases out with
  | ok resp quiz => rcases resp with ⟨s, em⟩; cases s <;> rfl
  | err msg => rfl

theorem checkQuizStatus_quizFetches (st : CState) (out : PollOutcome) :
    (checkQuizStatus st out).quizFetches =
      st.quizFetches + (if isReadyOutcome out then 1 else 0) := by
  cases out with
  | ok resp quiz => rcases resp with ⟨s, em⟩; cases s <;> rfl
  | err msg => rfl

theorem checkQuizStatus_mounted (st : CState) (out : PollOutcome) :
    (checkQuizStatus st out).mounted = st.mounted := by
  cases out with
  | ok resp quiz => rcases resp with ⟨s, em⟩; cases s <;> rfl
  | err msg => rfl

theorem pollStep_of_unmounted (st : CState) (e : PollEvent) (h : st.mounted = false) :
    pollStep st e = st := by
  cases e with
  | unmount => cases st; simp_all [pollStep]
  | tick out => simp [pollStep, h]

theorem pollRun_of_unmounted (es : List PollEvent) (st : CState) (h : st.mounted = false) :
    pollRun st es = st := by
  induction es generalizing st with
  | nil => rfl
  | cons e es ih =>
      simp only [pollRun, List.foldl_cons]
      rw [pollStep_of_unmounted st e h]
      exact ih st h

theorem pollRun_counts (es : List PollEvent) (st : CState) (h : st.mounted = true) :
    (pollRun st es).statusRequests = st.statusRequests + (mountedTicks es).length
    ∧ (pollRun st es).quizFetches =
        st.quizFetches + ((mountedTicks es).filter isReadyOutcome).length := by
  induction es generalizing st with
  | nil => simp [pollRun, mountedTicks]
  | cons e es ih =>
      cases e with
      | unmount =>
          have h2 : (pollStep st .unmount).mounted = false := rfl
          have h3 : pollRun (pollStep st .unmount) es = pollStep st .unmount :=
            pollRun_of_unmounted es _ h2
          simp only [pollRun, List.foldl_cons] at h3 ⊢
          rw [h3]
          exact ⟨rfl, rfl⟩
      | tick out =>
          simp only [pollRun, List.foldl_cons]
          have hst : pollStep st (.tick out) = checkQuizStatus st out := by
            simp [pollStep, h]
          rw [hst]
          have hm : (checkQuizStatus st out).mounted = true := by
            rw [checkQuizStatus_mounted]; exact h
          obtain ⟨ih1, ih2⟩ := ih (checkQuizStatus st out) hm
          simp only [pollRun] at ih1 ih2
          refine ⟨?_, ?_⟩
          · rw [ih1, checkQuizStatus_statusRequests]
            simp only [mountedTicks, List.length_cons]
            omega
          · rw [ih2, checkQuizStatus_quizFetches]
            simp only [mountedTicks]
            cases hr : isReadyOutcome out <;>
              first
              | (simp [List.filter_cons, hr]; omega)
              | (simp [List.filter_cons, hr])

/-- C1: the claim is false on the code.  In a run where the first 3-second
tick already observes `ready` and the screen stays mounted for two more
ticks, the poller issues two further status requests and two further
full-quiz fetches (three of each in total, where the claim allows exactly
one fetch and no further polls); likewise, after a `completed` status is
observed, a further tick still issues another status request, so polling
does not cease on a terminal status either. -/
theorem polling_after_ready_counterexample :
    (pollRun initState
        [.tick (.ok readyResponse demoQuiz),
         .tick (.ok readyResponse demoQuiz),
         .tick (.ok readyResponse demoQuiz)]).mounted = true
    ∧ (pollRun initState
        [.tick (.ok readyResponse demoQuiz),
         .tick (.ok readyResponse demoQuiz),
         .tick (.ok readyResponse demoQuiz)]).quizStatus = ClientStatus.ready
    ∧ (pollRun initState
        [.tick (.ok readyResponse demoQuiz),
         .tick (.ok readyResponse demoQuiz),
         .tick (.ok readyResponse demoQuiz)]).statusRequests = 3
    ∧ (pollRun initState
        [.tick (.ok readyResponse demoQuiz),
         .tick (.ok readyResponse demoQuiz),
         .tick (.ok readyResponse demoQuiz)]).quizFetches = 3
    ∧ (pollRun initState
        [.tick (.ok { status := .completed, error_message := none } demoQuiz),
         .tick (.ok { status := .completed, error_message := none } demoQuiz)]).statusRequests
        = 2 := by
  decide

/-- C1 (amended): observing `ready` does not stop the poller.  While the
screen stays mounted the interval keeps firing regardless of the observed
status: the total number of status requests of a run equals the number of
ticks before the first unmount, and a full-quiz fetch is issued on every
tick whose response carries `ready` (not exactly once); polling ceases only
when the screen unmounts. -/
theorem polling_runs_while_mounted (es : List PollEvent) :
    (pollRun initState es).statusRequests = (mountedTicks es).length
    ∧ (pollRun initState es).quizFetches =
        ((mountedTicks es).filter isReadyOutcome).length := by
  have h := pollRun_counts es initState rfl
  simpa [initState] using h

/-- C2: the claim is false on the code.  `checkQuizStatus` has no
sequence-number or staleness guard: when a later-issued request completes
first with `ready` and the earlier request then arrives with
`generating`, the late response is applied rather than discarded, and the
displayed status regresses from `ready` back to `generating`. -/
theorem stale_response_regression_counterexample :
    (applyArrivals initState [(readyResponse, demoQuiz)]).quizStatus = ClientStatus.ready
    ∧ (applyArrivals initState
        [(readyResponse, demoQuiz),
         ({ status := .generating, error_message := none }, demoQuiz)]).quizStatus
        = ClientStatus.generating
    ∧ ClientStatus.rank
        (applyArrivals initState
          [(readyResponse, demoQuiz),
           ({ status := .generating, error_message := none }, demoQuiz)]).quizStatus
      < ClientStatus.rank
          (applyArrivals initState [(readyResponse, demoQuiz)]).quizStatus := by
  decide

/-- C2 (amended): the client applies every status response in arrival
order with no staleness guard, so the rendered status is always the status
of the most recently arrived response — a late response belonging to an
earlier request is applied, not discarded, and can regress the displayed
status. -/
theorem displayed_status_is_last_arrival (st : CState)
    (arrivals : List (StatusResponse × Quiz)) (p : StatusResponse × Quiz) :
    (applyArrivals st (arrivals ++ [p])).quizStatus = ClientStatus.ofStatus p.1.status := by
  simp only [applyArrivals, List.foldl_append, List.foldl_cons, List.foldl_nil]
  exact applyStatusResponse_quizStatus _ _ _

/-- C5: while the screen is mounted the poller issues exactly one status
request per tick of the fixed 3000-millisecond interval, and the effect
cleanup on unmount clears the interval deterministically: an unmount event
changes nothing but `mounted`, and from any unmounted state an arbitrary
further event sequence leaves the state untouched — no background polling
after navigation away. -/
theorem polling_period_and_unmount_cancellation :
    pollIntervalMs = 3000
    ∧ (∀ (st : CState) (out : PollOutcome),
        (pollStep { st with mounted := true } (.tick out)).statusRequests
          = st.statusRequests + 1)
    ∧ (∀ st : CState,
        (pollStep st .unmount).mounted = false
        ∧ (pollStep st .unmount).statusRequests = st.statusRequests
        ∧ (pollStep st .unmount).quizFetches = st.quizFetches)
    ∧ (∀ (st : CState) (es : List PollEvent),
        pollRun { st with mounted := false } es = { st with mounted := false }) := by
  refine ⟨rfl, ?_, ?_, ?_⟩
  · intro st out
    have h : pollStep { st with mounted := true } (.tick out)
        = checkQuizStatus { st with mounted := true } out := by
      simp [pollStep]
    rw [h, checkQuizStatus_statusRequests]
  · intro st
    exact ⟨rfl, rfl, rfl⟩
  · intro st es
    exact pollRun_of_unmounted es _ rfl

theorem countdownRunAux_submitCalls (t : Nat) (st : CState) :
    (countdownRunAux t st).submitCalls = st.submitCalls + 1 := by
  induction t generalizing st with
  | zero => rfl
  | succ t ih => exact ih _

/-- C3: the claim is false on the code.  `handleSubmitQuiz` has no guard on
`isSubmitting`, and the countdown effect at zero calls it unconditionally:
in a state where a manual submission is already in flight (`isSubmitting`
is true and one submit call has been issued), the countdown reaching zero
issues a second submission call. -/
theorem auto_submit_double_submission_counterexample :
    ({ initState with isSubmitting := true, submitCalls := 1, timeRemaining := some 0 } : CState).isSubmitting = true
    ∧ (countdownEffect { initState with isSubmitting := true, submitCalls := 1, timeRemaining := some 0 }).submitCalls = 2 := by
  exact ⟨rfl, rfl⟩

/-- C3 (amended): when the countdown reaches zero, `handleSubmitQuiz` is
invoked — an undisturbed countdown from any seed issues exactly one
automatic submission call, and a seeded run never fires it twice — but
there is no double-submission guard: the effect at zero issues the call
whatever `isSubmitting` is, so reaching zero while a manual submission is
in flight issues a second submission call. -/
theorem countdown_zero_submits_once (st : CState) (t : Nat) :
    (countdownRun { st with timeRemaining := some t }).submitCalls = st.submitCalls + 1
    ∧ (countdownEffect { st with timeRemaining := some 0 }).submitCalls = st.submitCalls + 1
    ∧ (countdownRun { st with timeRemaining := none }).submitCalls = st.submitCalls := by
  refine ⟨?_, rfl, rfl⟩
  exact countdownRunAux_submitCalls t _

/-- C4: the claim is false on the code in two ways.  First, the seed uses
the JS falsy default `estimated_time_minutes || 20`: metadata that is
present but carries `0` seeds 1200 seconds, not `0 * 60`.  Second, the
seed effect re-runs on every change of `quizData`, and while the status
stays `ready` every 3-second poll re-fetches and stores a fresh quiz
object, so a tick observing `ready` resets a countdown that had already
run down to 500 seconds back to the full 1200 — the countdown does not
simply decrement by one each second while the screen is mounted. -/
theorem timer_seed_counterexample :
    (seedTimer { initState with quizData := some zeroMinuteQuiz }).timeRemaining = some 1200
    ∧ ¬ (seedTimer { initState with quizData := some zeroMinuteQuiz }).timeRemaining = some (0 * 60)
    ∧ (pollTickWithEffects
        { initState with quizData := some demoQuiz, quizStatus := .ready, timeRemaining := some 500 }
        (.ok readyResponse demoQuiz)).timeRemaining = some 1200 := by
  decide

/-- C4 (amended): once quiz metadata is known the countdown is seeded with
`estimated_time_minutes * 60` seconds, where the 20-minute default applies
when `estimated_time_minutes` is omitted or falsy (`0`); between reseeds
the countdown decrements by exactly one per second while positive (the
seed effect re-runs whenever `quizData` is stored again, resetting the
countdown to the full seed). -/
theorem timer_seed_and_decrement :
    (∀ (st : CState) (sub : String) (qs : List Question),
       (seedTimer { st with quizData := some ⟨⟨sub, none⟩, qs⟩ }).timeRemaining
         = some (20 * 60))
    ∧ (∀ (st : CState) (sub : String) (qs : List Question) (k : Nat),
       (seedTimer { st with quizData := some ⟨⟨sub, some (k + 1)⟩, qs⟩ }).timeRemaining
         = some ((k + 1) * 60))
    ∧ (∀ (st : CState) (sub : String) (qs : List Question),
       (seedTimer { st with quizData := some ⟨⟨sub, some 0⟩, qs⟩ }).timeRemaining
         = some (20 * 60))
    ∧ (∀ (st : CState) (t : Nat),
       (countdownEffect { st with timeRemaining := some (t + 1) }).timeRemaining = some t) := by
  refine ⟨fun st sub qs => rfl, fun st sub qs k => rfl, fun st sub qs => rfl,
    fun st t => rfl⟩

/-- C7: the claim is false on the code.  In a run whose first tick throws a
transient request error and whose second tick succeeds with `ready`,
polling indeed continued (two status requests were issued), but the catch
block did not only log: it stored the failure via `setError`, the error is
never cleared, and once the stored status leaves the loading/generating
branch the component renders the terminal error screen — here even though
the quiz generation actually succeeded. -/
theorem poll_error_rendered_counterexample :
    (pollRun initState
        [.tick (.err "Network Error"),
         .tick (.ok readyResponse demoQuiz)]).statusRequests = 2
    ∧ (pollRun initState
        [.tick (.err "Network Error"),
         .tick (.ok readyResponse demoQuiz)]).quizStatus = ClientStatus.ready
    ∧ (pollRun initState
        [.tick (.err "Network Error"),
         .tick (.ok readyResponse demoQuiz)]).error.isSome = true
    ∧ render (pollRun initState
        [.tick (.err "Network Error"),
         .tick (.ok readyResponse demoQuiz)]) = Screen.errorScreen := by
  decide

/-- C7 (amended): a failed poll does not stop polling — the tick still
counts one issued status request, the interval stays alive (`mounted`
unchanged) and the stored status is untouched, so the next tick retries —
but the failure is not only logged: the catch block stores the message in
the `error` state, and the component renders the terminal error screen
whenever an error is stored and the rendered status is past the
loading/generating branch (for example `ready` or `completed`). -/
theorem poll_error_logged_and_polling_continues :
    (∀ (st : CState) (msg : String),
        (pollStep { st with mounted := true } (.tick (.err msg))).statusRequests
          = st.statusRequests + 1
        ∧ (pollStep { st with mounted := true } (.tick (.err msg))).mounted = true
        ∧ (pollStep { st with mounted := true } (.tick (.err msg))).quizStatus = st.quizStatus
        ∧ (pollStep { st with mounted := true } (.tick (.err msg))).error
            = some ("Failed to load quiz: " ++ msg))
    ∧ (∀ (st : CState) (msg : String),
        render { st with error := some msg, quizStatus := .ready } = Screen.errorScreen
        ∧ render { st with error := some msg, quizStatus := .completed }
            = Screen.errorScreen) := by
  constructor
  · intro st msg
    exact ⟨rfl, rfl, rfl, rfl⟩
  · intro st msg
    exact ⟨rfl, rfl⟩

/-- C6 (spec-modelled backend): `percentage` equals
`points_earned / total_points * 100` exactly over the rationals, the grade is
derived from the percentage, and the letter thresholds are the closed
intervals A at 90 and above, B at 80, C at 70, D at 60, F below — so the
boundary 90 yields A and 89.99 yields B.  The in-repository score message of
Results.jsx uses the same closed intervals: 90 gets the top-tier message and
89.99 the second-tier one. -/
theorem grading_percentage_and_thresholds :
    (∀ results : List Bool,
        (computeOverallScore results).percentage
          = (computeOverallScore results).points_earned
              / (computeOverallScore results).total_points * 100
        ∧ (computeOverallScore results).grade
            = letterGrade (computeOverallScore results).percentage)
    ∧ (∀ p : ℚ, letterGrade p = "A" ↔ 90 ≤ p)
    ∧ (∀ p : ℚ, letterGrade p = "B" ↔ 80 ≤ p ∧ p < 90)
    ∧ (∀ p : ℚ, letterGrade p = "C" ↔ 70 ≤ p ∧ p < 80)
    ∧ (∀ p : ℚ, letterGrade p = "D" ↔ 60 ≤ p ∧ p < 70)
    ∧ (∀ p : ℚ, letterGrade p = "F" ↔ p < 60)
    ∧ letterGrade 90 = "A"
    ∧ letterGrade (8999 / 100) = "B"
    ∧ getScoreMessage 90 = getScoreMessage 100
    ∧ getScoreMessage (8999 / 100) = getScoreMessage 85 := by
  refine ⟨fun results => ⟨rfl, rfl⟩, ?_, ?_, ?_, ?_, ?_, ?_, ?_, ?_, ?_⟩
  · intro p
    unfold letterGrade
    split_ifs with h1 h2 h3 h4
    · exact iff_of_true rfl h1
    · exact iff_of_false (by decide) h1
    · exact iff_of_false (by decide) h1
    · exact iff_of_false (by decide) h1
    · exact iff_of_false (by decide) h1
  · intro p
    unfold letterGrade
    split_ifs with h1 h2 h3 h4
    · exact iff_of_false (by decide) (by rintro ⟨ha, hb⟩; linarith)
    · exact iff_of_true rfl ⟨h2, not_le.mp h1⟩
    · exact iff_of_false (by decide) (by rintro ⟨ha, hb⟩; linarith)
    · exact iff_of_false (by decide) (by rintro ⟨ha, hb⟩; linarith)
    · exact iff_of_false (by decide) (by rintro ⟨ha, hb⟩; linarith)
  · intro p
    unfold letterGrade
    split_ifs with h1 h2 h3 h4
    · exact iff_of_false (by decide) (by rintro ⟨ha, hb⟩; linarith)
    · exact iff_of_false (by decide) (by rintro ⟨ha, hb⟩; linarith)
    · exact iff_of_true rfl ⟨h3, not_le.mp h2⟩
    · exact iff_of_false (by decide) (by rintro ⟨ha, hb⟩; linarith)
    · exact iff_of_false (by decide) (by rintro ⟨ha, hb⟩; linarith)
  · intro p
    unfold letterGrade
    split_ifs with h1 h2 h3 h4
    · exact iff_of_false (by decide) (by rintro ⟨ha, hb⟩; linarith)
    · exact iff_of_false (by decide) (by rintro ⟨ha, hb⟩; linarith)
    · exact iff_of_false (by decide) (by rintro ⟨ha, hb⟩; linarith)
    · exact iff_of_true rfl ⟨h4, not_le.mp h3⟩
    · exact iff_of_false (by decide) (by rintro ⟨ha, hb⟩; linarith)
  · intro p
    unfold letterGrade
    split_ifs with h1 h2 h3 h4
    · exact iff_of_false (by decide) (by intro h; linarith)
    · exact iff_of_false (by decide) (by intro h; linarith)
    · exact iff_of_false (by decide) (by intro h; linarith)
    · exact iff_of_false (by decide) (by intro h; linarith)
    · exact iff_of_true rfl (not_le.mp h4)
  · norm_num [letterGrade]
  · norm_num [letterGrade]
  · norm_num [getScoreMessage]
  · norm_num [getScoreMessage]

theorem mem_insertDesc {x s : SessionSummary} {l : List SessionSummary} :
    x ∈ insertDesc s l ↔ x = s ∨ x ∈ l := by
  induction l with
  | nil => simp [insertDesc]
  | cons t ts ih =>
      by_cases h : t.created_at ≤ s.created_at
      · simp [insertDesc, h]
      · simp [insertDesc, h, ih]
        tauto

theorem sorted_insertDesc {s : SessionSummary} {l : List SessionSummary}
    (hl : l.Sorted newerFirst) : (insertDesc s l).Sorted newerFirst := by
  induction l with
  | nil => simp [insertDesc, newerFirst]
  | cons t ts ih =>
      rw [List.sorted_cons] at hl
      obtain ⟨ht, hts⟩ := hl
      by_cases h : t.created_at ≤ s.created_at
      · simp only [insertDesc, if_pos h]
        rw [List.sorted_cons]
        refine ⟨?_, ?_⟩
        · intro b hb
          rcases List.mem_cons.mp hb with rfl | hb
          · exact h
          · exact le_trans (ht b hb) h
        · rw [List.sorted_cons]
          exact ⟨ht, hts⟩
      · simp only [insertDesc, if_neg h]
        rw [List.sorted_cons]
        refine ⟨?_, ih hts⟩
        intro b hb
        rcases mem_insertDesc.mp hb with rfl | hb
        · exact le_of_not_le h
        · exact ht b hb

theorem sorted_historyQuery (sessions : List SessionSummary) :
    (historyQuery sessions).Sorted newerFirst := by
  induction sessions with
  | nil => simp [historyQuery]
  | cons s ss ih =>
      simp only [historyQuery, List.foldr_cons] at ih ⊢
      exact sorted_insertDesc ih

/-- C8 (the endpoint half is spec-modelled, the client half is from the
source): the history query returns every session ordered by creation time
most-recent-first — in particular three sessions created at times 1 < 2 < 3
come back with creation times [3, 2, 1] — and the clients perform no
further sort: the recent view of the dashboard is literally the first five
entries of the returned list (slicing preserves the order, the slice
followed by the rest reassembles the list), and the history page stores
the returned list unchanged. -/
theorem history_most_recent_first :
    (∀ sessions : List SessionSummary, (historyQuery sessions).Sorted newerFirst)
    ∧ ((historyQuery
          [⟨"id1", "Mathematics", .completed, 1⟩,
           ⟨"id2", "Physics", .ready, 2⟩,
           ⟨"id3", "Chemistry", .generating, 3⟩]).map SessionSummary.created_at
        = [3, 2, 1])
    ∧ (∀ sessions : List SessionSummary,
        recentSessions sessions ++ sessions.drop 5 = sessions)
    ∧ (∀ sessions : List SessionSummary, loadHistory sessions = sessions) := by
  refine ⟨sorted_historyQuery, by decide, ?_, fun _ => rfl⟩
  intro sessions
  exact List.take_append_drop 5 sessions

/-- C9: handleAnswerChange stores the given answer under the given question
id and leaves the entry of every other question id exactly as it was. -/
theorem handleAnswerChange_frame (st : CState) (questionId answer q : String) :
    (handleAnswerChange st questionId answer).answers q
      = if q = questionId then some answer else st.answers q := rfl

/-- C10: for a non-empty question list and an in-range current index, both
navigation handlers keep the index inside the range: at the last index the
next handler leaves it unchanged and below it increments by exactly one; at
index zero the previous handler leaves it unchanged and above it decrements
by exactly one. -/
theorem question_index_bounds (numQuestions : Nat) (st : CState)
    (h0 : 0 < numQuestions) (hi : st.currentQuestionIndex < numQuestions) :
    (handleNextQuestion numQuestions st).currentQuestionIndex < numQuestions
    ∧ (handlePreviousQuestion st).currentQuestionIndex < numQuestions
    ∧ (st.currentQuestionIndex = numQuestions - 1 →
        (handleNextQuestion numQuestions st).currentQuestionIndex
          = st.currentQuestionIndex)
    ∧ (st.currentQuestionIndex < numQuestions - 1 →
        (handleNextQuestion numQuestions st).currentQuestionIndex
          = st.currentQuestionIndex + 1)
    ∧ (st.currentQuestionIndex = 0 →
        (handlePreviousQuestion st).currentQuestionIndex = 0)
    ∧ (0 < st.currentQuestionIndex →
        (handlePreviousQuestion st).currentQuestionIndex
          = st.currentQuestionIndex - 1) := by
  unfold handleNextQuestion handlePreviousQuestion
  split_ifs with h1 h2 <;> simp_all <;> omega

/-- Closed instance of the index-bounds theorem at three questions and the
initial index zero. -/
theorem question_index_bounds_witness :
    0 < 3 ∧ initState.currentQuestionIndex < 3
    ∧ ((handleNextQuestion 3 initState).currentQuestionIndex < 3
       ∧ (handlePreviousQuestion initState).currentQuestionIndex < 3
       ∧ (initState.currentQuestionIndex = 3 - 1 →
           (handleNextQuestion 3 initState).currentQuestionIndex
             = initState.currentQuestionIndex)
       ∧ (initState.currentQuestionIndex < 3 - 1 →
           (handleNextQuestion 3 initState).currentQuestionIndex
             = initState.currentQuestionIndex + 1)
       ∧ (initState.currentQuestionIndex = 0 →
           (handlePreviousQuestion initState).currentQuestionIndex = 0)
       ∧ (0 < initState.currentQuestionIndex →
           (handlePreviousQuestion initState).currentQuestionIndex
             = initState.currentQuestionIndex - 1)) :=
  ⟨by decide, by decide, question_index_bounds 3 initState (by decide) (by decide)⟩

end QuizFlow
